import Mathlib

/-!
Verification of the Fall_2025 comfort-feedback application.

The definitions below are a shallow embedding of the computational parts of
the repository: the clothing-insulation (CLO) estimator, the WHO-5 well-being
scorer, the feedback submission writer, the voice-recorder save handler, and
the dashboard/sensor query layers.  Python floats are modelled as rationals,
bytes as lists of naturals, and each fallible network call as a boolean
outcome parameter; code wrapped in try/except is modelled as a total function
emitting user-facing message events.
-/

namespace Fall2025

/-! ## Clothing insulation (src/app.py, CLO_ITEMS / compute_clo / CLO_BANDS) -/

/-- The accessory entry of the garment table; selecting it sets the 5%
multiplier instead of adding a base value. -/
def tieItem : String := "Tie or turtle-neck (+5%)"

/-- The fixed per-garment insulation lookup table `CLO_ITEMS` (app.py). -/
def CLO_ITEMS : List (String × ℚ) :=
  [ ("Underwear (bra+panties/briefs)", 5/100),
    ("T-shirt / singlet", 9/100),
    ("Long underwear (upper)", 35/100),
    ("Long underwear (lower)", 35/100),
    ("Shirt, short sleeve (light)", 14/100),
    ("Shirt, long sleeve (light)", 22/100),
    ("Shirt, long sleeve (heavy)", 29/100),
    ("Blouse, light", 20/100),
    ("Dress, light", 22/100),
    ("Dress, heavy", 70/100),
    ("Vest, light", 15/100),
    ("Vest, heavy", 29/100),
    ("Skirt, light", 10/100),
    ("Skirt, heavy", 22/100),
    ("Trousers / slacks, light", 26/100),
    ("Trousers / slacks, heavy", 32/100),
    ("Pullover, light", 20/100),
    ("Pullover, heavy (thick sweater)", 37/100),
    ("Jacket, light", 22/100),
    ("Jacket, heavy", 49/100),
    ("Coat (indoor short coat)", 65/100),
    ("Socks, ankle length", 4/100),
    ("Socks, knee length", 10/100),
    ("Stockings / pantyhose", 1/100),
    ("Footwear: sandals", 2/100),
    ("Footwear: shoes", 4/100),
    ("Footwear: boots", 8/100),
    ("Tie or turtle-neck (+5%)", 0) ]

/-- Rounding to two decimal places, the `round(x, 2)` of `compute_clo`. -/
def round2 (q : ℚ) : ℚ := ((⌊q * 100 + 1/2⌋ : ℤ) : ℚ) / 100

/-- The accumulation loop of `compute_clo`: walks the selection keeping the
running base sum and the multiplier; a key missing from `CLO_ITEMS` is the
KeyError case, modelled as `none`. -/
def compute_clo_go : List String → ℚ → ℚ → Option (ℚ × ℚ)
  | [], base, mult => some (base, mult)
  | item :: rest, base, mult =>
    if item = tieItem then compute_clo_go rest base (105/100)
    else
      match CLO_ITEMS.lookup item with
      | some v => compute_clo_go rest (base + v) mult
      | none => none

/-- `compute_clo` (app.py): sums the table values of the selected garments,
with the tie/turtle-neck entry switching the multiplier to 1.05, and rounds
the product to two decimals.  The details dict built alongside is only
displayed, so it is not modelled. -/
def compute_clo (selected : List String) : Option ℚ :=
  (compute_clo_go selected 0 1).map (fun p => round2 (p.1 * p.2))

/-- Specification-side description of the itemized sum: the table values of
the selected non-accessory items. -/
def itemizedSum (selected : List String) : ℚ :=
  ((selected.filter (fun s => s ≠ tieItem)).map
    (fun s => (CLO_ITEMS.lookup s).getD 0)).sum

/-- The pictogram band table `CLO_BANDS` (app.py). -/
def CLO_BANDS : List (String × ℚ) :=
  [ ("<0.5 clo", 45/100),
    ("0.6–1.2 clo", 90/100),
    ("1.3–1.7 clo", 150/100),
    ("1.8–2.4 clo", 200/100),
    ("2.5–3.4 clo", 290/100),
    (">3.5 clo", 360/100) ]

/-- Final clo selection (app.py line 411):
`clo_value = clo_itemized if chosen_items else (clo_from_scale if clo_from_scale else clo_quick_fallback)`.
Python truthiness: a list is truthy iff nonempty, a float is truthy iff
nonzero. -/
def clo_value (chosen_items : List String) (clo_itemized clo_cont clo_quick : ℚ) : ℚ :=
  if chosen_items ≠ [] then clo_itemized
  else if clo_cont ≠ 0 then clo_cont
  else clo_quick

theorem compute_clo_go_eq (sel : List String) (base mult : ℚ)
    (h : ∀ s ∈ sel, (CLO_ITEMS.lookup s).isSome) :
    compute_clo_go sel base mult =
      some (base + itemizedSum sel, if tieItem ∈ sel then 105/100 else mult) := by
  induction sel generalizing base mult with
  | nil => simp [compute_clo_go, itemizedSum]
  | cons s rest ih =>
    by_cases hs : s = tieItem
    · subst hs
      rw [compute_clo_go, if_pos rfl,
        ih base (105/100) (fun t ht => h t (List.mem_cons_of_mem _ ht))]
      have hsum : itemizedSum (tieItem :: rest) = itemizedSum rest := by
        simp [itemizedSum]
      rw [hsum]
      by_cases hm : tieItem ∈ rest <;> simp [hm]
    · have hlook : (CLO_ITEMS.lookup s).isSome := h s (List.mem_cons_self _ _)
      obtain ⟨v, hv⟩ := Option.isSome_iff_exists.mp hlook
      rw [compute_clo_go, if_neg hs, hv]
      show compute_clo_go rest (base + v) mult = _
      rw [ih (base + v) mult (fun t ht => h t (List.mem_cons_of_mem _ ht))]
      have hsum : itemizedSum (s :: rest) = v + itemizedSum rest := by
        simp [itemizedSum, hs, hv]
      have hif : (if tieItem ∈ s :: rest then (105 : ℚ)/100 else mult)
          = (if tieItem ∈ rest then (105 : ℚ)/100 else mult) := by
        by_cases hm : tieItem ∈ rest
        · simp [List.mem_cons, hm]
        · have hnc : ¬ tieItem ∈ s :: rest := by
            rw [List.mem_cons]
            rintro (hteq | hmem)
            · exact hs hteq.symm
            · exact hm hmem
          simp [hnc, hm]
      rw [hsum, hif, add_assoc]

/-- C1: for a selection drawn from the garment table, `compute_clo` returns
the sum of the table values of the selected non-accessory items, multiplied
by 1.05 when the tie/turtle-neck accessory is selected and by 1.0 otherwise,
rounded to two decimal places. -/
theorem compute_clo_correct (sel : List String)
    (h : ∀ s ∈ sel, (CLO_ITEMS.lookup s).isSome) :
    compute_clo sel =
      some (round2 (itemizedSum sel * (if tieItem ∈ sel then 105/100 else 1))) := by
  rw [compute_clo, compute_clo_go_eq sel 0 1 h]
  simp

/-- Evaluation of C1 at the concrete selection [T-shirt, tie]. -/
theorem compute_clo_correct_witness :
    (∀ s ∈ ["T-shirt / singlet", tieItem], (CLO_ITEMS.lookup s).isSome) ∧
    compute_clo ["T-shirt / singlet", tieItem] =
      some (round2 (itemizedSum ["T-shirt / singlet", tieItem] *
        (if tieItem ∈ ["T-shirt / singlet", tieItem] then 105/100 else 1))) :=
  ⟨by decide, compute_clo_correct ["T-shirt / singlet", tieItem] (by decide)⟩

/-- C3: the final clothing-insulation value follows the precedence of
app.py line 411: when any itemized garment is selected the itemized sum is
used, and otherwise the value is the continuous-slider value or the band
value. -/
theorem clo_value_precedence (items : List String) (it cont quick : ℚ) :
    (items ≠ [] → clo_value items it cont quick = it) ∧
    (items = [] →
      clo_value items it cont quick = cont ∨ clo_value items it cont quick = quick) := by
  constructor
  · intro hne
    simp [clo_value, hne]
  · intro hnil
    subst hnil
    by_cases hc : cont ≠ 0
    · left; simp [clo_value, hc]
    · right; simp [clo_value, hc]

/-- Evaluation of C3 at a nonempty selection and at the empty selection. -/
theorem clo_value_precedence_witness :
    ((["Blouse, light"] : List String) ≠ [] ∧
      clo_value ["Blouse, light"] (20/100) (9/10) (45/100) = 20/100) ∧
    (([] : List String) = [] ∧
      (clo_value [] (20/100) (9/10) (45/100) = 9/10 ∨
       clo_value [] (20/100) (9/10) (45/100) = 45/100)) :=
  ⟨⟨by decide, (clo_value_precedence ["Blouse, light"] (20/100) (9/10) (45/100)).1 (by decide)⟩,
   ⟨rfl, (clo_value_precedence [] (20/100) (9/10) (45/100)).2 rfl⟩⟩

/-- Counterexample to C4 as stated: with the band "0.6–1.2 clo" selected
(band value 0.90) and no itemized garments chosen, setting the continuous
slider — one of the remaining inputs — to 1.2 makes the final clo value 1.2,
not 0.90. -/
theorem clo_band_default_counterexample :
    (CLO_BANDS.lookup "0.6–1.2 clo").getD 0 = 90/100 ∧
    clo_value [] 0 (12/10) ((CLO_BANDS.lookup "0.6–1.2 clo").getD 0) = 12/10 ∧
    (12/10 : ℚ) ≠ 90/100 := by
  refine ⟨by simp [CLO_BANDS, List.lookup], ?_, by norm_num⟩
  norm_num [clo_value, CLO_BANDS]

/-- C4 amended: with the band "0.6–1.2 clo" selected and no itemized
garments chosen, the final clo value equals 0.90 provided the continuous
slider is at 0.0 (so the band value is used) or at its default 0.9. -/
theorem clo_band_default_amended (it cont : ℚ) (h : cont = 0 ∨ cont = 9/10) :
    clo_value [] it cont ((CLO_BANDS.lookup "0.6–1.2 clo").getD 0) = 90/100 := by
  have hb : (CLO_BANDS.lookup "0.6–1.2 clo").getD 0 = (90 : ℚ)/100 := by
    simp [CLO_BANDS, List.lookup]
  rcases h with h | h <;> subst h <;> norm_num [clo_value, hb]

/-- Evaluation of the amended C4 at continuous-slider value 0.0. -/
theorem clo_band_default_amended_witness :
    ((0 : ℚ) = 0 ∨ (0 : ℚ) = 9/10) ∧
    clo_value [] 0 0 ((CLO_BANDS.lookup "0.6–1.2 clo").getD 0) = 90/100 :=
  ⟨Or.inl rfl, clo_band_default_amended 0 0 (Or.inl rfl)⟩

/-- C9: with no itemized garments chosen, a continuous-slider value of
exactly 0.0 is falsy, so the final value falls back to the band value; and
since every band value in `CLO_BANDS` is nonzero, the submitted value can
never be the continuous value 0.0, whatever the slider shows. -/
theorem clo_cont_zero_fallback (it cont bv : ℚ) (bkey : String)
    (hb : (bkey, bv) ∈ CLO_BANDS) :
    clo_value [] it 0 bv = bv ∧ clo_value [] it cont bv ≠ 0 := by
  have hbv : bv ≠ 0 := by
    simp only [CLO_BANDS, List.mem_cons, List.not_mem_nil, or_false, Prod.mk.injEq] at hb
    rcases hb with ⟨_, h⟩ | ⟨_, h⟩ | ⟨_, h⟩ | ⟨_, h⟩ | ⟨_, h⟩ | ⟨_, h⟩ <;>
      (subst h; norm_num)
  constructor
  · simp [clo_value]
  · by_cases hc : cont ≠ 0
    · simp [clo_value, hc]
    · simpa [clo_value, hc] using hbv

/-- Evaluation of C9 at the lightest band. -/
theorem clo_cont_zero_fallback_witness :
    (("<0.5 clo", (45 : ℚ)/100) ∈ CLO_BANDS) ∧
    clo_value [] (3/10) 0 (45/100) = 45/100 ∧
    clo_value [] (3/10) (7/10) (45/100) ≠ 0 := by
  have h := clo_cont_zero_fallback (3/10) (7/10) (45/100) "<0.5 clo" (by simp [CLO_BANDS])
  have h0 := clo_cont_zero_fallback (3/10) 0 (45/100) "<0.5 clo" (by simp [CLO_BANDS])
  exact ⟨by simp [CLO_BANDS], h0.1, h.2⟩

/-! ## WHO-5 well-being scorer (src/app.py, who5_matrix) -/

/-- `raw_sum = sum(answers.values())` over the five WHO-5 item sliders. -/
def who5_raw_sum (a : Fin 5 → ℕ) : ℕ := ∑ i, a i

/-- `scaled = raw_sum * 4`. -/
def who5_scaled (a : Fin 5 → ℕ) : ℕ := who5_raw_sum a * 4

/-- The initial tip string of `who5_matrix`. -/
def acceptableTip : String := "✅ ≥ 50 suggests acceptable well-being."

/-- The tip string assigned when the scaled score is below 50. -/
def reducedTip : String := "⚠️ < 50 suggests reduced well-being; consider follow-up."

/-- The note appended when the scaled score is below 28. -/
def cutoffNote : String := " **< 28 is a common depression-screening cut-off.**"

/-- The tip computation of `who5_matrix` (app.py lines 160-164): start from
the acceptable tip, replace it when scaled < 50, append the screening note
when scaled < 28. -/
def who5_tip (scaled : ℕ) : String :=
  let tip := acceptableTip
  let tip := if scaled < 50 then reducedTip else tip
  if scaled < 28 then tip ++ cutoffNote else tip

/-- C2: for five WHO-5 item scores, each an integer in [0,5], the raw sum is
their arithmetic sum and lies in [0,25], and the scaled score is the raw sum
times 4 and lies in [0,100]. -/
theorem who5_score_bounds (a : Fin 5 → ℕ) (h : ∀ i, a i ≤ 5) :
    who5_raw_sum a = a 0 + a 1 + a 2 + a 3 + a 4 ∧
    who5_raw_sum a ≤ 25 ∧
    who5_scaled a = who5_raw_sum a * 4 ∧
    who5_scaled a ≤ 100 := by
  have hraw : who5_raw_sum a ≤ 25 := by
    have hle : who5_raw_sum a ≤ ∑ _i : Fin 5, 5 :=
      Finset.sum_le_sum (fun i _ => h i)
    simpa using hle
  refine ⟨?_, hraw, rfl, ?_⟩
  · simp [who5_raw_sum, Fin.sum_univ_five]
  · calc who5_scaled a = who5_raw_sum a * 4 := rfl
      _ ≤ 25 * 4 := Nat.mul_le_mul_right 4 hraw
      _ = 100 := rfl

/-- Evaluation of C2 at the all-threes answer vector. -/
theorem who5_score_bounds_witness :
    (∀ i : Fin 5, (fun _ : Fin 5 => 3) i ≤ 5) ∧
    (who5_raw_sum (fun _ => 3) = 3 + 3 + 3 + 3 + 3 ∧
      who5_raw_sum (fun _ => 3) ≤ 25 ∧
      who5_scaled (fun _ => 3) = who5_raw_sum (fun _ => 3) * 4 ∧
      who5_scaled (fun _ => 3) ≤ 100) :=
  ⟨fun _ => by norm_num, who5_score_bounds (fun _ => 3) (fun _ => by norm_num)⟩

/-- C5: the WHO-5 tip is fixed-threshold commentary on the scaled score
(≥ 50 acceptable, < 50 reduced, < 28 additionally the screening note); in
particular all-fives answers give raw 25, scaled 100 and the acceptable tip,
and all-zeros answers give raw 0, scaled 0 and a tip carrying the
depression-screening cut-off note. -/
theorem who5_tip_thresholds :
    (∀ s : ℕ, 50 ≤ s → who5_tip s = acceptableTip) ∧
    (∀ s : ℕ, 28 ≤ s → s < 50 → who5_tip s = reducedTip) ∧
    (∀ s : ℕ, s < 28 → who5_tip s = reducedTip ++ cutoffNote) ∧
    (who5_raw_sum (fun _ => 5) = 25 ∧ who5_scaled (fun _ => 5) = 100 ∧
      who5_tip (who5_scaled (fun _ => 5)) = acceptableTip) ∧
    (who5_raw_sum (fun _ => 0) = 0 ∧ who5_scaled (fun _ => 0) = 0 ∧
      ∃ p, who5_tip (who5_scaled (fun _ => 0)) = p ++ cutoffNote) := by
  refine ⟨?_, ?_, ?_, ⟨?_, ?_, ?_⟩, ⟨?_, ?_, ?_⟩⟩
  · intro s hs
    have h50 : ¬ s < 50 := by omega
    have h28 : ¬ s < 28 := by omega
    simp [who5_tip, h50, h28]
  · intro s hs28 hs50
    have h28 : ¬ s < 28 := by omega
    simp [who5_tip, hs50, h28]
  · intro s hs
    have h50 : s < 50 := by omega
    simp [who5_tip, h50, hs]
  · simp [who5_raw_sum, Fin.sum_univ_five]
  · simp [who5_scaled, who5_raw_sum, Fin.sum_univ_five]
  · have h100 : who5_scaled (fun _ => 5) = 100 := by
      simp [who5_scaled, who5_raw_sum, Fin.sum_univ_five]
    rw [h100]
    simp [who5_tip]
  · simp [who5_raw_sum, Fin.sum_univ_five]
  · simp [who5_scaled, who5_raw_sum, Fin.sum_univ_five]
  · have h0 : who5_scaled (fun _ => 0) = 0 := by
      simp [who5_scaled, who5_raw_sum, Fin.sum_univ_five]
    rw [h0]
    exact ⟨reducedTip, by simp [who5_tip]⟩

/-- Evaluation of C5 at concrete scaled scores 60, 30 and 10. -/
theorem who5_tip_thresholds_witness :
    (50 ≤ 60 ∧ who5_tip 60 = acceptableTip) ∧
    (28 ≤ 30 ∧ 30 < 50 ∧ who5_tip 30 = reducedTip) ∧
    (10 < 28 ∧ who5_tip 10 = reducedTip ++ cutoffNote) :=
  ⟨⟨by decide, who5_tip_thresholds.1 60 (by decide)⟩,
   ⟨by decide, by decide, who5_tip_thresholds.2.1 30 (by decide) (by decide)⟩,
   ⟨by decide, who5_tip_thresholds.2.2.1 10 (by decide)⟩⟩

/-! ## Submission writer (src/app.py, Submit Feedback handler) and
voice-recorder save handler (src/pages/03_Voice_Recorder.py)

External calls are modelled as observable events; whether a call raises is
an input flag, and the try/except wrappers of the source make each handler a
total function on those flags. -/

/-- Observable effects of a handler run: an object-storage upload attempt,
an object-storage removal, a table insert attempt, and user-facing
messages. -/
inductive AppEv where
  | storageUpload (path : String) (ok : Bool)
  | storageRemove (path : String)
  | tableInsert (ok : Bool)
  | showError (msg : String)
  | showSuccess (msg : String)
deriving DecidableEq

def isUpload : AppEv → Bool
  | .storageUpload _ _ => true
  | _ => false

def isRemove : AppEv → Bool
  | .storageRemove _ => true
  | _ => false

def isInsert : AppEv → Bool
  | .tableInsert _ => true
  | _ => false

/-- Number of feedback rows actually created by a run: successful insert
attempts. -/
def rowsInserted (evs : List AppEv) : ℕ :=
  evs.countP (fun e => e == AppEv.tableInsert true)

/-- Python truthiness of the `audio_bytes` variable: `None` and the empty
byte string are falsy. -/
def audioPresent : Option (List ℕ) → Bool
  | some b => !b.isEmpty
  | none => false

def audioUploadFailedMsg : String := "⚠️ Audio upload failed"

def submitFailedMsg : String := "❌ Failed to submit"

def submittedMsg : String := "✅ Thanks! Your feedback was submitted."

/-- Result of the Submit Feedback handler: the event trace plus the audio
fields of the record passed to the insert. -/
structure SubmitResult where
  events : List AppEv
  audio_path : Option String
  audio_mime : Option String
deriving DecidableEq

/-- The Submit Feedback handler of app.py (lines 507-573), audio and insert
section.  When `audio_bytes` is truthy the blob is uploaded inside its own
try/except: on success `audio_path` becomes the generated file name, on
failure an error is shown and `audio_path` stays `None`.  The audio fields
are then merged into the payload and a single insert is attempted inside a
second try/except. -/
def submit_feedback (audio_bytes : Option (List ℕ)) (mime fname : String)
    (uploadOk insertOk : Bool) : SubmitResult :=
  let uploadStep :=
    if audioPresent audio_bytes then
      if uploadOk then (some fname, [AppEv.storageUpload fname true])
      else (none, [AppEv.storageUpload fname false,
                   AppEv.showError audioUploadFailedMsg])
    else (none, ([] : List AppEv))
  let path := uploadStep.1
  let insertStep :=
    if insertOk then [AppEv.tableInsert true, AppEv.showSuccess submittedMsg]
    else [AppEv.tableInsert false, AppEv.showError submitFailedMsg]
  { events := uploadStep.2 ++ insertStep,
    audio_path := path,
    audio_mime := if path.isSome then some mime else none }

/-- C6: a submission without audio makes no object-storage upload call and
passes a record whose audio_path and audio_mime are null. -/
theorem submit_no_audio (mime fname : String) (uploadOk insertOk : Bool) :
    (submit_feedback none mime fname uploadOk insertOk).audio_path = none ∧
    (submit_feedback none mime fname uploadOk insertOk).audio_mime = none ∧
    (submit_feedback none mime fname uploadOk insertOk).events.countP isUpload = 0 := by
  cases uploadOk <;> cases insertOk <;>
    refine ⟨rfl, rfl, ?_⟩ <;> rfl

/-- C7: the Submit Feedback handler uploads the audio blob (when present)
before the single table insert, merges the produced path into the record,
converts upload and insert exceptions into user-facing error messages
without propagating them, performs no retry, and never removes an uploaded
object when the insert fails. -/
theorem submit_upload_then_single_insert (ab : Option (List ℕ)) (mime fname : String)
    (uploadOk insertOk : Bool) :
    (submit_feedback ab mime fname uploadOk insertOk).events.countP isInsert = 1 ∧
    ((submit_feedback ab mime fname uploadOk insertOk).events.filter
        (fun e => isUpload e || isInsert e) =
      (if audioPresent ab then [AppEv.storageUpload fname uploadOk] else []) ++
        [AppEv.tableInsert insertOk]) ∧
    (audioPresent ab = true → uploadOk = true →
      (submit_feedback ab mime fname uploadOk insertOk).audio_path = some fname) ∧
    (audioPresent ab = true → uploadOk = false →
      AppEv.showError audioUploadFailedMsg ∈
        (submit_feedback ab mime fname uploadOk insertOk).events) ∧
    (insertOk = false →
      (submit_feedback ab mime fname uploadOk insertOk).events.getLast? =
        some (AppEv.showError submitFailedMsg)) ∧
    (submit_feedback ab mime fname uploadOk insertOk).events.countP isRemove = 0 := by
  rcases hap : audioPresent ab with _ | _ <;> cases uploadOk <;> cases insertOk <;>
    simp [submit_feedback, hap, isUpload, isInsert, isRemove]

/-- Evaluation of C7 at a present audio blob whose upload fails while the
insert succeeds. -/
theorem submit_upload_then_single_insert_witness :
    audioPresent (some [1]) = true ∧
    (submit_feedback (some [1]) "audio/wav" "voice/x.wav" false true).events.countP isInsert = 1 ∧
    AppEv.showError audioUploadFailedMsg ∈
      (submit_feedback (some [1]) "audio/wav" "voice/x.wav" false true).events ∧
    (submit_feedback (some [1]) "audio/wav" "voice/x.wav" false true).events.countP isRemove = 0 := by
  have h := submit_upload_then_single_insert (some [1]) "audio/wav" "voice/x.wav" false true
  exact ⟨rfl, h.1, h.2.2.2.1 rfl rfl, h.2.2.2.2.2⟩

def saveFailedMsg : String := "❌ Save failed"

def savedMsg : String := "✅ Saved! Open the Playback page to listen."

/-- The Save voice feedback handler of pages/03_Voice_Recorder.py
(lines 56-79): one try block first uploads the recorded audio, then inserts
the feedback row; any exception jumps to the except clause, which shows an
error message. -/
def save_voice_feedback (fname : String) (uploadOk insertOk : Bool) : List AppEv :=
  if uploadOk then
    if insertOk then
      [AppEv.storageUpload fname true, AppEv.tableInsert true,
       AppEv.showSuccess savedMsg]
    else
      [AppEv.storageUpload fname true, AppEv.tableInsert false,
       AppEv.showError saveFailedMsg]
  else
    [AppEv.storageUpload fname false, AppEv.showError saveFailedMsg]

/-- C10: on the Voice Recorder page the upload and the insert run inside one
protected block in that order, so the storage-and-insert trace is the upload
attempt followed by an insert attempt only when the upload succeeded; in
particular a failed upload means the insert is never attempted and no
feedback row is created. -/
theorem voice_save_protected_block (fname : String) (uploadOk insertOk : Bool) :
    ((save_voice_feedback fname uploadOk insertOk).filter
        (fun e => isUpload e || isInsert e) =
      AppEv.storageUpload fname uploadOk ::
        (if uploadOk then [AppEv.tableInsert insertOk] else [])) ∧
    (uploadOk = false →
      (save_voice_feedback fname uploadOk insertOk).countP isInsert = 0 ∧
      rowsInserted (save_voice_feedback fname uploadOk insertOk) = 0) := by
  cases uploadOk <;> cases insertOk <;>
    simp [save_voice_feedback, isUpload, isInsert, rowsInserted]

/-- Evaluation of C10 at a failing upload. -/
theorem voice_save_protected_block_witness :
    (save_voice_feedback "voice/x.wav" false true).countP isInsert = 0 ∧
    rowsInserted (save_voice_feedback "voice/x.wav" false true) = 0 :=
  (voice_save_protected_block "voice/x.wav" false true).2 rfl

/-! ## Dashboard / sensor query layers (src/pages/01_Dashboard.py,
src/pages/02_Sensors.py, src/02_Sensors.py)

The backend select is modelled by its observable semantics: the stored rows
ordered by the timestamp column descending, truncated to the fixed limit.
Timestamps are integers, numeric sensor fields rationals. -/

/-- A feedback row as consumed by the dashboard filters. -/
structure FRow where
  timestamp : ℤ
  room : Option String
  clothing : Option String
deriving DecidableEq

/-- A sensor row as consumed by the sensors page. -/
structure SRow where
  ts : ℤ
  device_id : Option String
  room : Option String
  temp_c : Option ℚ
deriving DecidableEq

/-- Descending-by-timestamp order used by `.order("timestamp", desc=True)`. -/
def fbDesc (a b : FRow) : Prop := b.timestamp ≤ a.timestamp

/-- Descending-by-ts order used by `.order("ts", desc=True)`. -/
def snDesc (a b : SRow) : Prop := b.ts ≤ a.ts

instance : DecidableRel fbDesc :=
  fun a b => inferInstanceAs (Decidable (b.timestamp ≤ a.timestamp))

instance : DecidableRel snDesc :=
  fun a b => inferInstanceAs (Decidable (b.ts ≤ a.ts))

instance : IsTotal FRow fbDesc :=
  ⟨fun a b => (le_total b.timestamp a.timestamp).imp id id⟩

instance : IsTrans FRow fbDesc :=
  ⟨fun _ _ _ hab hbc => le_trans hbc hab⟩

instance : IsTotal SRow snDesc :=
  ⟨fun a b => (le_total b.ts a.ts).imp id id⟩

instance : IsTrans SRow snDesc :=
  ⟨fun _ _ _ hab hbc => le_trans hbc hab⟩

/-- The `limit=2000` default of `fetch_feedback` (pages/01_Dashboard.py). -/
def FEEDBACK_FETCH_LIMIT : ℕ := 2000

/-- The `limit=5000` default of `fetch_sensors` (pages/02_Sensors.py and
02_Sensors.py). -/
def SENSORS_FETCH_LIMIT : ℕ := 5000

/-- `fetch_feedback`: select ordered by timestamp descending, capped at the
fetch limit. -/
def fetch_feedback (table : List FRow) : List FRow :=
  (table.insertionSort fbDesc).take FEEDBACK_FETCH_LIMIT

/-- `fetch_sensors`: select ordered by ts descending, capped at the fetch
limit. -/
def fetch_sensors (table : List SRow) : List SRow :=
  (table.insertionSort snDesc).take SENSORS_FETCH_LIMIT

/-- The client-side dashboard mask: time window cutoff, then room and
clothing equality when a concrete choice (not "(all)") is selected. -/
def feedback_mask (cutoff : ℤ) (room_sel clothing_sel : Option String)
    (r : FRow) : Bool :=
  decide (cutoff ≤ r.timestamp) &&
  (match room_sel with
   | none => true
   | some rs => decide (r.room = some rs)) &&
  (match clothing_sel with
   | none => true
   | some cs => decide (r.clothing = some cs))

/-- The client-side sensors mask: time window cutoff, then device and room
equality when a concrete choice is selected. -/
def sensors_mask (cutoff : ℤ) (dev_sel room_sel : Option String)
    (r : SRow) : Bool :=
  decide (cutoff ≤ r.ts) &&
  (match dev_sel with
   | none => true
   | some ds => decide (r.device_id = some ds)) &&
  (match room_sel with
   | none => true
   | some rs => decide (r.room = some rs))

/-- `view = df.loc[mask]` on the dashboard page: the fetched frame narrowed
client-side. -/
def dashboard_view (table : List FRow) (cutoff : ℤ)
    (room_sel clothing_sel : Option String) : List FRow :=
  (fetch_feedback table).filter (feedback_mask cutoff room_sel clothing_sel)

/-- `view = df.loc[mask]` on the sensors page. -/
def sensors_view (table : List SRow) (cutoff : ℤ)
    (dev_sel room_sel : Option String) : List SRow :=
  (fetch_sensors table).filter (sensors_mask cutoff dev_sel room_sel)

/-- The `resample(rule).mean()` call of the sensors charts, for the
temperature series: rows are bucketed by ts divided by the bin width and
each nonempty bucket is averaged. -/
def resampleMeanTemp (rows : List SRow) (bin b : ℤ) : Option ℚ :=
  let xs := (rows.filter (fun r => decide (r.ts / bin = b))).filterMap SRow.temp_c
  if xs.isEmpty then none else some (xs.sum / xs.length)

/-- C8: both query layers fetch at most the fixed row cap (2000 feedback
rows, 5000 sensor rows) ordered by the timestamp column descending; all
further narrowing by time window, device/room and clothing is the
client-side mask applied to the fetched frame; and the charted time-bucketed
temperature means are the per-bucket averages of the narrowed view. -/
theorem dashboard_fetch_caps (ftable : List FRow) (stable : List SRow)
    (cutF cutS : ℤ) (roomF clothF devS roomS : Option String) :
    (fetch_feedback ftable).length ≤ 2000 ∧
    List.Sorted fbDesc (fetch_feedback ftable) ∧
    (fetch_sensors stable).length ≤ 5000 ∧
    List.Sorted snDesc (fetch_sensors stable) ∧
    (∀ r, r ∈ dashboard_view ftable cutF roomF clothF ↔
      r ∈ fetch_feedback ftable ∧ feedback_mask cutF roomF clothF r = true) ∧
    (∀ r, r ∈ sensors_view stable cutS devS roomS ↔
      r ∈ fetch_sensors stable ∧ sensors_mask cutS devS roomS r = true) ∧
    (∀ bin b, resampleMeanTemp (sensors_view stable cutS devS roomS) bin b =
      (let xs := ((sensors_view stable cutS devS roomS).filter
          (fun r => decide (r.ts / bin = b))).filterMap SRow.temp_c
       if xs.isEmpty then none else some (xs.sum / xs.length))) := by
  refine ⟨?_, ?_, ?_, ?_, ?_, ?_, fun bin b => rfl⟩
  · exact le_trans (List.length_take_le _ _) le_rfl
  · exact List.Pairwise.sublist (List.take_sublist _ _)
      (List.sorted_insertionSort fbDesc ftable)
  · exact le_trans (List.length_take_le _ _) le_rfl
  · exact List.Pairwise.sublist (List.take_sublist _ _)
      (List.sorted_insertionSort snDesc stable)
  · intro r
    simp [dashboard_view, List.mem_filter]
  · intro r
    simp [sensors_view, List.mem_filter]

end Fall2025
